import Mathlib

/-!
Shallow embedding of the surface-intersection helpers of the bezier library
(module bezier._surface_helpers), together with proofs of properties of the
classification, assembly and sign-certification routines.

Real arithmetic is embedded with rational numbers: every branch condition in
the source is a comparison or an exact sign test, which the rationals model
exactly.  Python exceptions are embedded as the error case of Except.
Collaborator routines that live in other modules of the library
(bezier._curve_helpers, bezier._helpers, Surface.locate) are modelled from
the specification, or taken as parameters when only their output drives the
control flow under scrutiny.
-/

set_option autoImplicit false

deriving instance DecidableEq for Except

/-- Sign of a rational number, mirroring numpy.sign composed with astype(int):
1 for positive, -1 for negative, 0 for zero. -/
def sgn (q : ℚ) : ℤ :=
  if 0 < q then 1 else if q < 0 then -1 else 0

/-- Modelled from the spec: the planar cross product of two vectors,
cross_product(v, w) -> scalar, from the external module bezier._helpers. -/
def cross_product (v w : ℚ × ℚ) : ℚ :=
  v.1 * w.2 - v.2 * w.1

/-- One round of the de Casteljau algorithm for a curve: blend consecutive
control points with weights (1 - s) and s. -/
def deCasteljauStep (s : ℚ) (pts : List (ℚ × ℚ)) : List (ℚ × ℚ) :=
  List.zipWith
    (fun p q => ((1 - s) * p.1 + s * q.1, (1 - s) * p.2 + s * q.2))
    pts pts.tail

/-- Fuel-indexed de Casteljau recursion; each step shortens the point list by
one, so fuel equal to the list length always suffices. -/
def deCasteljauAux : ℕ → ℚ → List (ℚ × ℚ) → ℚ × ℚ
  | 0, _, _ => (0, 0)
  | _ + 1, _, [] => (0, 0)
  | _ + 1, _, [p] => p
  | n + 1, s, p :: q :: rest => deCasteljauAux n s (deCasteljauStep s (p :: q :: rest))

/-- Full de Casteljau evaluation of a Bezier curve at parameter s. -/
def deCasteljau (s : ℚ) (pts : List (ℚ × ℚ)) : ℚ × ℚ :=
  deCasteljauAux pts.length s pts

/-- Forward differences of the control points, the control points of the
hodograph (derivative curve) up to the degree factor. -/
def hodographNodes (nodes : List (ℚ × ℚ)) : List (ℚ × ℚ) :=
  List.zipWith (fun p q => (q.1 - p.1, q.2 - p.2)) nodes nodes.tail

/-- Modelled from the spec: evaluate_hodograph(s, nodes) -> tangent, from the
external module bezier._curve_helpers.  The hodograph is the derivative
curve: for control points p0..pn the derivative is n times the Bezier
combination of the forward differences. -/
def evaluate_hodograph (s : ℚ) (nodes : List (ℚ × ℚ)) : ℚ × ℚ :=
  let d : ℚ := ((nodes.length - 1 : ℕ) : ℚ)
  let v := deCasteljau s (hodographNodes nodes)
  (d * v.1, d * v.2)

/-- A Bezier curve: an ordered sequence of 2D control points. -/
structure Curve where
  nodes : List (ℚ × ℚ)
deriving DecidableEq, Repr

/-- The three boundary edges of a triangular surface. -/
abbrev Edges := Curve × Curve × Curve

/-- Index into the three edges of a surface (indices are taken mod 3; callers
of the source only ever pass 0, 1 or 2). -/
def getEdge (edges : Edges) (i : ℕ) : Curve :=
  match i % 3 with
  | 0 => edges.1
  | 1 => edges.2.1
  | _ => edges.2.2

/-- Classification tags for an intersection, mirroring the enum
_IntersectionClassification of the source. -/
inductive IntersectionClassification where
  | FIRST
  | SECOND
  | OPPOSED
  | TANGENT_FIRST
  | TANGENT_SECOND
  | IGNORED_CORNER
deriving DecidableEq, Repr

open IntersectionClassification

/-- Modelled from the spec: the Intersection record
(index_first, s, index_second, t) handed to the classifier; the record type
lives in the external module bezier._intersection_helpers. -/
structure Intersection where
  index_first : ℕ
  s : ℚ
  index_second : ℕ
  t : ℚ
deriving DecidableEq, Repr

/-- Signature of get_curvature(nodes, tangent, parameter) -> scalar from the
external module bezier._curve_helpers; the classifier is parameterized over
it since only its output value drives the tangent branches. -/
abbrev GetCurvature := List (ℚ × ℚ) → (ℚ × ℚ) → ℚ → ℚ

/-- Error message used when tangent curves have identical curvature. -/
def _SAME_CURVATURE : String := "Tangent curves have same curvature."

/-- Error message used when opposite-direction tangent curves define
overlapping arcs. -/
def _BAD_TANGENT : String :=
  "Curves moving in opposite direction but define overlapping arcs."

/-- Error message used when a loop segment has mismatched edge indices. -/
def _WRONG_CURVE : String := "Start and end node not defined on same curve"

/-- Helper for classify_intersection at tangencies, embedding
classify_tangent_intersection of the source. -/
def classify_tangent_intersection (getCurvature : GetCurvature)
    (intersection : Intersection) (nodes1 : List (ℚ × ℚ)) (tangent1 : ℚ × ℚ)
    (nodes2 : List (ℚ × ℚ)) (tangent2 : ℚ × ℚ) :
    Except String IntersectionClassification :=
  let dot_prod := tangent1.1 * tangent2.1 + tangent1.2 * tangent2.2
  let curvature1 := getCurvature nodes1 tangent1 intersection.s
  let curvature2 := getCurvature nodes2 tangent2 intersection.t
  if dot_prod < 0 then
    let sign1 := sgn curvature1
    let sign2 := sgn curvature2
    if sign1 = sign2 then
      if sign1 = 1 then .ok OPPOSED
      else .error _BAD_TANGENT
    else
      let delta_c := |curvature1| - |curvature2|
      if delta_c = 0 then .error _SAME_CURVATURE
      else if sign1 = sgn delta_c then .ok OPPOSED
      else .error _BAD_TANGENT
  else
    if curvature2 < curvature1 then .ok TANGENT_FIRST
    else if curvature1 < curvature2 then .ok TANGENT_SECOND
    else .error _SAME_CURVATURE

/-- Check ignored when a corner lies inside another edge, embedding
ignored_edge_corner of the source. -/
def ignored_edge_corner (edge_tangent corner_tangent : ℚ × ℚ)
    (corner_previous_edge : List (ℚ × ℚ)) : Bool :=
  if 0 < cross_product edge_tangent corner_tangent then false
  else
    let alt0 := evaluate_hodograph 1 corner_previous_edge
    let alt_corner_tangent := (-alt0.1, -alt0.2)
    decide (cross_product edge_tangent alt_corner_tangent ≤ 0)

/-- Check if an intersection is an ignored double corner, embedding
ignored_double_corner of the source. -/
def ignored_double_corner (intersection : Intersection)
    (tangent_s tangent_t : ℚ × ℚ) (edges1 edges2 : Edges) : Bool :=
  let prev_edge1 := getEdge edges1 ((intersection.index_first + 2) % 3)
  let alt_tangent_s := evaluate_hodograph 1 prev_edge1.nodes
  let cross_prod1 := cross_product tangent_s tangent_t
  if 0 ≤ cross_prod1 ∧ 0 ≤ cross_product alt_tangent_s tangent_t then false
  else
    let prev_edge2 := getEdge edges2 ((intersection.index_second + 2) % 3)
    let alt0 := evaluate_hodograph 1 prev_edge2.nodes
    let alt_tangent_t := (-alt0.1, -alt0.2)
    let cross_prod3 := cross_product tangent_s alt_tangent_t
    if 0 ≤ cross_prod3 ∧ 0 ≤ cross_product alt_tangent_s alt_tangent_t then
      false
    else
      decide (¬ (cross_prod1 ≤ 0 ∧ 0 ≤ cross_prod3))

/-- Check if an intersection is an ignored corner, embedding ignored_corner
of the source. -/
def ignored_corner (intersection : Intersection)
    (tangent_s tangent_t : ℚ × ℚ) (edges1 edges2 : Edges) : Bool :=
  if intersection.s = 0 then
    if intersection.t = 0 then
      ignored_double_corner intersection tangent_s tangent_t edges1 edges2
    else
      let prev_edge := getEdge edges1 ((intersection.index_first + 2) % 3)
      ignored_edge_corner tangent_t tangent_s prev_edge.nodes
  else if intersection.t = 0 then
    let prev_edge := getEdge edges2 ((intersection.index_second + 2) % 3)
    ignored_edge_corner tangent_s tangent_t prev_edge.nodes
  else
    false

/-- Determine which curve is on the inside of the intersection, embedding
classify_intersection of the source. -/
def classify_intersection (getCurvature : GetCurvature)
    (intersection : Intersection) (edges1 edges2 : Edges) :
    Except String IntersectionClassification :=
  if intersection.s = 1 ∨ intersection.t = 1 then
    .error "Intersection occurs at the end of an edge"
  else
    let nodes1 := (getEdge edges1 intersection.index_first).nodes
    let tangent1 := evaluate_hodograph intersection.s nodes1
    let nodes2 := (getEdge edges2 intersection.index_second).nodes
    let tangent2 := evaluate_hodograph intersection.t nodes2
    if ignored_corner intersection tangent1 tangent2 edges1 edges2 then
      .ok IGNORED_CORNER
    else
      let cross_prod := cross_product tangent1 tangent2
      if cross_prod < 0 then .ok FIRST
      else if 0 < cross_prod then .ok SECOND
      else
        classify_tangent_intersection getCurvature intersection
          nodes1 tangent1 nodes2 tangent2

/-- First quadratic of the classify-intersection doctest:
nodes [[1, 0], [1.75, 0.25], [2, 1]]. -/
def doctest_curve1 : Curve := ⟨[(1, 0), (7/4, 1/4), (2, 1)]⟩

/-- Second quadratic of the classify-intersection doctest:
nodes [[0, 0], [1.6875, 0.0625], [2, 0.5]]. -/
def doctest_curve2 : Curve := ⟨[(0, 0), (27/16, 1/16), (2, 1/2)]⟩

/-- Scaled integer matrix: every entry divided by the common denominator c,
matching the source constants written as integer arrays divided by c. -/
def scaleRows (c : ℚ) (m : List (List ℤ)) : List (List ℚ) :=
  m.map (fun r => r.map (fun z => (z : ℚ) / c))

/-- Subdivision matrix LINEAR_SUBDIVIDE_A of the source (entries divided by 2). -/
def LINEAR_SUBDIVIDE_A : List (List ℚ) :=
  scaleRows 2 [[2, 0, 0],
    [1, 1, 0],
    [1, 0, 1]]

/-- Subdivision matrix LINEAR_SUBDIVIDE_B of the source (entries divided by 2). -/
def LINEAR_SUBDIVIDE_B : List (List ℚ) :=
  scaleRows 2 [[0, 1, 1],
    [1, 0, 1],
    [1, 1, 0]]

/-- Subdivision matrix LINEAR_SUBDIVIDE_C of the source (entries divided by 2). -/
def LINEAR_SUBDIVIDE_C : List (List ℚ) :=
  scaleRows 2 [[1, 1, 0],
    [0, 2, 0],
    [0, 1, 1]]

/-- Subdivision matrix LINEAR_SUBDIVIDE_D of the source (entries divided by 2). -/
def LINEAR_SUBDIVIDE_D : List (List ℚ) :=
  scaleRows 2 [[1, 0, 1],
    [0, 1, 1],
    [0, 0, 2]]

/-- Subdivision matrix QUADRATIC_SUBDIVIDE_A of the source (entries divided by 4). -/
def QUADRATIC_SUBDIVIDE_A : List (List ℚ) :=
  scaleRows 4 [[4, 0, 0, 0, 0, 0],
    [2, 2, 0, 0, 0, 0],
    [1, 2, 1, 0, 0, 0],
    [2, 0, 0, 2, 0, 0],
    [1, 1, 0, 1, 1, 0],
    [1, 0, 0, 2, 0, 1]]

/-- Subdivision matrix QUADRATIC_SUBDIVIDE_B of the source (entries divided by 4). -/
def QUADRATIC_SUBDIVIDE_B : List (List ℚ) :=
  scaleRows 4 [[0, 0, 1, 0, 2, 1],
    [0, 1, 0, 1, 1, 1],
    [1, 0, 0, 2, 0, 1],
    [0, 1, 1, 1, 1, 0],
    [1, 1, 0, 1, 1, 0],
    [1, 2, 1, 0, 0, 0]]

/-- Subdivision matrix QUADRATIC_SUBDIVIDE_C of the source (entries divided by 4). -/
def QUADRATIC_SUBDIVIDE_C : List (List ℚ) :=
  scaleRows 4 [[1, 2, 1, 0, 0, 0],
    [0, 2, 2, 0, 0, 0],
    [0, 0, 4, 0, 0, 0],
    [0, 1, 1, 1, 1, 0],
    [0, 0, 2, 0, 2, 0],
    [0, 0, 1, 0, 2, 1]]

/-- Subdivision matrix QUADRATIC_SUBDIVIDE_D of the source (entries divided by 4). -/
def QUADRATIC_SUBDIVIDE_D : List (List ℚ) :=
  scaleRows 4 [[1, 0, 0, 2, 0, 1],
    [0, 1, 0, 1, 1, 1],
    [0, 0, 1, 0, 2, 1],
    [0, 0, 0, 2, 0, 2],
    [0, 0, 0, 0, 2, 2],
    [0, 0, 0, 0, 0, 4]]

/-- Subdivision matrix CUBIC_SUBDIVIDE_A of the source (entries divided by 8). -/
def CUBIC_SUBDIVIDE_A : List (List ℚ) :=
  scaleRows 8 [[8, 0, 0, 0, 0, 0, 0, 0, 0, 0],
    [4, 4, 0, 0, 0, 0, 0, 0, 0, 0],
    [2, 4, 2, 0, 0, 0, 0, 0, 0, 0],
    [1, 3, 3, 1, 0, 0, 0, 0, 0, 0],
    [4, 0, 0, 0, 4, 0, 0, 0, 0, 0],
    [2, 2, 0, 0, 2, 2, 0, 0, 0, 0],
    [1, 2, 1, 0, 1, 2, 1, 0, 0, 0],
    [2, 0, 0, 0, 4, 0, 0, 2, 0, 0],
    [1, 1, 0, 0, 2, 2, 0, 1, 1, 0],
    [1, 0, 0, 0, 3, 0, 0, 3, 0, 1]]

/-- Subdivision matrix CUBIC_SUBDIVIDE_B of the source (entries divided by 8). -/
def CUBIC_SUBDIVIDE_B : List (List ℚ) :=
  scaleRows 8 [[0, 0, 0, 1, 0, 0, 3, 0, 3, 1],
    [0, 0, 1, 0, 0, 2, 1, 1, 2, 1],
    [0, 1, 0, 0, 1, 2, 0, 2, 1, 1],
    [1, 0, 0, 0, 3, 0, 0, 3, 0, 1],
    [0, 0, 1, 1, 0, 2, 2, 1, 1, 0],
    [0, 1, 1, 0, 1, 2, 1, 1, 1, 0],
    [1, 1, 0, 0, 2, 2, 0, 1, 1, 0],
    [0, 1, 2, 1, 1, 2, 1, 0, 0, 0],
    [1, 2, 1, 0, 1, 2, 1, 0, 0, 0],
    [1, 3, 3, 1, 0, 0, 0, 0, 0, 0]]

/-- Subdivision matrix CUBIC_SUBDIVIDE_C of the source (entries divided by 8). -/
def CUBIC_SUBDIVIDE_C : List (List ℚ) :=
  scaleRows 8 [[1, 3, 3, 1, 0, 0, 0, 0, 0, 0],
    [0, 2, 4, 2, 0, 0, 0, 0, 0, 0],
    [0, 0, 4, 4, 0, 0, 0, 0, 0, 0],
    [0, 0, 0, 8, 0, 0, 0, 0, 0, 0],
    [0, 1, 2, 1, 1, 2, 1, 0, 0, 0],
    [0, 0, 2, 2, 0, 2, 2, 0, 0, 0],
    [0, 0, 0, 4, 0, 0, 4, 0, 0, 0],
    [0, 0, 1, 1, 0, 2, 2, 1, 1, 0],
    [0, 0, 0, 2, 0, 0, 4, 0, 2, 0],
    [0, 0, 0, 1, 0, 0, 3, 0, 3, 1]]

/-- Subdivision matrix CUBIC_SUBDIVIDE_D of the source (entries divided by 8). -/
def CUBIC_SUBDIVIDE_D : List (List ℚ) :=
  scaleRows 8 [[1, 0, 0, 0, 3, 0, 0, 3, 0, 1],
    [0, 1, 0, 0, 1, 2, 0, 2, 1, 1],
    [0, 0, 1, 0, 0, 2, 1, 1, 2, 1],
    [0, 0, 0, 1, 0, 0, 3, 0, 3, 1],
    [0, 0, 0, 0, 2, 0, 0, 4, 0, 2],
    [0, 0, 0, 0, 0, 2, 0, 2, 2, 2],
    [0, 0, 0, 0, 0, 0, 2, 0, 4, 2],
    [0, 0, 0, 0, 0, 0, 0, 4, 0, 4],
    [0, 0, 0, 0, 0, 0, 0, 0, 4, 4],
    [0, 0, 0, 0, 0, 0, 0, 0, 0, 8]]

/-- Subdivision matrix QUARTIC_SUBDIVIDE_A of the source (entries divided by 16). -/
def QUARTIC_SUBDIVIDE_A : List (List ℚ) :=
  scaleRows 16 [[16, 0, 0, 0, 0, 0, 0, 0, 0, 0, 0, 0, 0, 0, 0],
    [8, 8, 0, 0, 0, 0, 0, 0, 0, 0, 0, 0, 0, 0, 0],
    [4, 8, 4, 0, 0, 0, 0, 0, 0, 0, 0, 0, 0, 0, 0],
    [2, 6, 6, 2, 0, 0, 0, 0, 0, 0, 0, 0, 0, 0, 0],
    [1, 4, 6, 4, 1, 0, 0, 0, 0, 0, 0, 0, 0, 0, 0],
    [8, 0, 0, 0, 0, 8, 0, 0, 0, 0, 0, 0, 0, 0, 0],
    [4, 4, 0, 0, 0, 4, 4, 0, 0, 0, 0, 0, 0, 0, 0],
    [2, 4, 2, 0, 0, 2, 4, 2, 0, 0, 0, 0, 0, 0, 0],
    [1, 3, 3, 1, 0, 1, 3, 3, 1, 0, 0, 0, 0, 0, 0],
    [4, 0, 0, 0, 0, 8, 0, 0, 0, 4, 0, 0, 0, 0, 0],
    [2, 2, 0, 0, 0, 4, 4, 0, 0, 2, 2, 0, 0, 0, 0],
    [1, 2, 1, 0, 0, 2, 4, 2, 0, 1, 2, 1, 0, 0, 0],
    [2, 0, 0, 0, 0, 6, 0, 0, 0, 6, 0, 0, 2, 0, 0],
    [1, 1, 0, 0, 0, 3, 3, 0, 0, 3, 3, 0, 1, 1, 0],
    [1, 0, 0, 0, 0, 4, 0, 0, 0, 6, 0, 0, 4, 0, 1]]

/-- Subdivision matrix QUARTIC_SUBDIVIDE_B of the source (entries divided by 16). -/
def QUARTIC_SUBDIVIDE_B : List (List ℚ) :=
  scaleRows 16 [[0, 0, 0, 0, 1, 0, 0, 0, 4, 0, 0, 6, 0, 4, 1],
    [0, 0, 0, 1, 0, 0, 0, 3, 1, 0, 3, 3, 1, 3, 1],
    [0, 0, 1, 0, 0, 0, 2, 2, 0, 1, 4, 1, 2, 2, 1],
    [0, 1, 0, 0, 0, 1, 3, 0, 0, 3, 3, 0, 3, 1, 1],
    [1, 0, 0, 0, 0, 4, 0, 0, 0, 6, 0, 0, 4, 0, 1],
    [0, 0, 0, 1, 1, 0, 0, 3, 3, 0, 3, 3, 1, 1, 0],
    [0, 0, 1, 1, 0, 0, 2, 3, 1, 1, 3, 2, 1, 1, 0],
    [0, 1, 1, 0, 0, 1, 3, 2, 0, 2, 3, 1, 1, 1, 0],
    [1, 1, 0, 0, 0, 3, 3, 0, 0, 3, 3, 0, 1, 1, 0],
    [0, 0, 1, 2, 1, 0, 2, 4, 2, 1, 2, 1, 0, 0, 0],
    [0, 1, 2, 1, 0, 1, 3, 3, 1, 1, 2, 1, 0, 0, 0],
    [1, 2, 1, 0, 0, 2, 4, 2, 0, 1, 2, 1, 0, 0, 0],
    [0, 1, 3, 3, 1, 1, 3, 3, 1, 0, 0, 0, 0, 0, 0],
    [1, 3, 3, 1, 0, 1, 3, 3, 1, 0, 0, 0, 0, 0, 0],
    [1, 4, 6, 4, 1, 0, 0, 0, 0, 0, 0, 0, 0, 0, 0]]

/-- Subdivision matrix QUARTIC_SUBDIVIDE_C of the source (entries divided by 16). -/
def QUARTIC_SUBDIVIDE_C : List (List ℚ) :=
  scaleRows 16 [[1, 4, 6, 4, 1, 0, 0, 0, 0, 0, 0, 0, 0, 0, 0],
    [0, 2, 6, 6, 2, 0, 0, 0, 0, 0, 0, 0, 0, 0, 0],
    [0, 0, 4, 8, 4, 0, 0, 0, 0, 0, 0, 0, 0, 0, 0],
    [0, 0, 0, 8, 8, 0, 0, 0, 0, 0, 0, 0, 0, 0, 0],
    [0, 0, 0, 0, 16, 0, 0, 0, 0, 0, 0, 0, 0, 0, 0],
    [0, 1, 3, 3, 1, 1, 3, 3, 1, 0, 0, 0, 0, 0, 0],
    [0, 0, 2, 4, 2, 0, 2, 4, 2, 0, 0, 0, 0, 0, 0],
    [0, 0, 0, 4, 4, 0, 0, 4, 4, 0, 0, 0, 0, 0, 0],
    [0, 0, 0, 0, 8, 0, 0, 0, 8, 0, 0, 0, 0, 0, 0],
    [0, 0, 1, 2, 1, 0, 2, 4, 2, 1, 2, 1, 0, 0, 0],
    [0, 0, 0, 2, 2, 0, 0, 4, 4, 0, 2, 2, 0, 0, 0],
    [0, 0, 0, 0, 4, 0, 0, 0, 8, 0, 0, 4, 0, 0, 0],
    [0, 0, 0, 1, 1, 0, 0, 3, 3, 0, 3, 3, 1, 1, 0],
    [0, 0, 0, 0, 2, 0, 0, 0, 6, 0, 0, 6, 0, 2, 0],
    [0, 0, 0, 0, 1, 0, 0, 0, 4, 0, 0, 6, 0, 4, 1]]

/-- Subdivision matrix QUARTIC_SUBDIVIDE_D of the source (entries divided by 16). -/
def QUARTIC_SUBDIVIDE_D : List (List ℚ) :=
  scaleRows 16 [[1, 0, 0, 0, 0, 4, 0, 0, 0, 6, 0, 0, 4, 0, 1],
    [0, 1, 0, 0, 0, 1, 3, 0, 0, 3, 3, 0, 3, 1, 1],
    [0, 0, 1, 0, 0, 0, 2, 2, 0, 1, 4, 1, 2, 2, 1],
    [0, 0, 0, 1, 0, 0, 0, 3, 1, 0, 3, 3, 1, 3, 1],
    [0, 0, 0, 0, 1, 0, 0, 0, 4, 0, 0, 6, 0, 4, 1],
    [0, 0, 0, 0, 0, 2, 0, 0, 0, 6, 0, 0, 6, 0, 2],
    [0, 0, 0, 0, 0, 0, 2, 0, 0, 2, 4, 0, 4, 2, 2],
    [0, 0, 0, 0, 0, 0, 0, 2, 0, 0, 4, 2, 2, 4, 2],
    [0, 0, 0, 0, 0, 0, 0, 0, 2, 0, 0, 6, 0, 6, 2],
    [0, 0, 0, 0, 0, 0, 0, 0, 0, 4, 0, 0, 8, 0, 4],
    [0, 0, 0, 0, 0, 0, 0, 0, 0, 0, 4, 0, 4, 4, 4],
    [0, 0, 0, 0, 0, 0, 0, 0, 0, 0, 0, 4, 0, 8, 4],
    [0, 0, 0, 0, 0, 0, 0, 0, 0, 0, 0, 0, 8, 0, 8],
    [0, 0, 0, 0, 0, 0, 0, 0, 0, 0, 0, 0, 0, 8, 8],
    [0, 0, 0, 0, 0, 0, 0, 0, 0, 0, 0, 0, 0, 0, 16]]

/-- Componentwise sum of two node rows. -/
def vecAdd (u v : List ℚ) : List ℚ := List.zipWith (· + ·) u v

/-- Scalar multiple of a node row. -/
def scaleVec (c : ℚ) (v : List ℚ) : List ℚ := v.map (fun x => c * x)

/-- Linear combination of node rows with the weights of one matrix row. -/
def linCombRows (row : List ℚ) (nodes : List (List ℚ)) : List ℚ :=
  match List.zipWith scaleVec row nodes with
  | [] => []
  | v :: vs => vs.foldl vecAdd v

/-- Modelled from the spec: matrix_product(mat, nodes) from the external
module bezier._helpers, the ordinary matrix product taking node rows to
node rows. -/
def matrix_product (mat : List (List ℚ)) (nodes : List (List ℚ)) :
    List (List ℚ) :=
  mat.map (fun row => linCombRows row nodes)

/-- Index bookkeeping of _de_casteljau_one_round: the output index of entry
(k, j) is j plus the number of entries in the rows before row k. -/
def dcorIndex (degree k j : ℕ) : ℕ :=
  k * degree - k * (k - 1) / 2 + j

/-- One round of the de Casteljau algorithm for surfaces, embedding
_de_casteljau_one_round of the source: entry (k, j) blends the three parent
nodes at offsets index + k, index + k + 1 and index + degree + 1. -/
def de_casteljau_one_round (nodes : List (List ℚ)) (degree : ℕ)
    (lambda1 lambda2 lambda3 : ℚ) : List (List ℚ) :=
  (List.range degree).flatMap (fun k =>
    (List.range (degree - k)).map (fun j =>
      let index := dcorIndex degree k j
      vecAdd (vecAdd (scaleVec lambda1 (nodes.getD (index + k) []))
          (scaleVec lambda2 (nodes.getD (index + k + 1) [])))
        (scaleVec lambda3 (nodes.getD (index + degree + 1) []))))

/-- Identity matrix, embedding eye of the external module bezier._helpers. -/
def eye (n : ℕ) : List (List ℚ) :=
  (List.range n).map (fun i =>
    (List.range n).map (fun j => if i = j then (1 : ℚ) else 0))

/-- Barycentric weight triple. -/
abbrev Weights := ℚ × ℚ × ℚ

/-- Matrices corresponding to one de Casteljau round at each weight triple,
embedding make_transform of the source. -/
def make_transform (degree : ℕ) (weights_a weights_b weights_c : Weights) :
    ℕ → List (List ℚ) :=
  let num_nodes := (degree + 1) * (degree + 2) / 2
  let id_mat := eye num_nodes
  fun k =>
    match k with
    | 0 => de_casteljau_one_round id_mat degree weights_a.1 weights_a.2.1 weights_a.2.2
    | 1 => de_casteljau_one_round id_mat degree weights_b.1 weights_b.2.1 weights_b.2.2
    | _ => de_casteljau_one_round id_mat degree weights_c.1 weights_c.2.1 weights_c.2.2

/-- Lookup of a reduction key in the association list of reduced values. -/
def lookupKey (vals : List (List ℕ × List (List ℚ))) (key : List ℕ) :
    List (List ℚ) :=
  match vals.find? (fun kv => decide (kv.1 = key)) with
  | some kv => kv.2
  | none => []

/-- Convert the reduced-values mapping into a node matrix, embedding
reduced_to_matrix of the source: keys are read off in the canonical
bottom-to-top, left-to-right order of the triangle. -/
def reduced_to_matrix (degree : ℕ)
    (vals_by_weight : List (List ℕ × List (List ℚ))) : List (List ℚ) :=
  (List.range (degree + 1)).flatMap (fun k =>
    (List.range (degree + 1 - k)).map (fun j =>
      let i := degree - j - k
      let key := List.replicate i 0 ++ List.replicate j 1 ++ List.replicate k 2
      (lookupKey vals_by_weight key).getD 0 []))

/-- Specialize a surface to a reparameterization given by three barycentric
points, embedding _specialize_surface of the source.  The source keeps the
partial reductions in a dictionary keyed by ascending weight tuples; an
association list built in the same insertion order models it. -/
def specialize_surface (nodes : List (List ℚ)) (degree : ℕ)
    (weights_a weights_b weights_c : Weights) : List (List ℚ) :=
  let start : List (List ℕ × List (List ℚ)) :=
    [([0], de_casteljau_one_round nodes degree weights_a.1 weights_a.2.1 weights_a.2.2),
     ([1], de_casteljau_one_round nodes degree weights_b.1 weights_b.2.1 weights_b.2.2),
     ([2], de_casteljau_one_round nodes degree weights_c.1 weights_c.2.1 weights_c.2.2)]
  let reduction_degrees := (List.range (degree - 1)).map (fun i => degree - 1 - i)
  let vals_by_weight := reduction_degrees.foldl
    (fun pv reduced_deg =>
      let transform := make_transform reduced_deg weights_a weights_b weights_c
      pv.flatMap (fun kv =>
        (List.range' (kv.1.getLastD 0) (3 - kv.1.getLastD 0)).map (fun next_id =>
          (kv.1 ++ [next_id], matrix_product (transform next_id) kv.2))))
    start
  reduced_to_matrix degree vals_by_weight

/-- Barycentric weights used by the generic subdivision path. -/
def _WEIGHTS_SUBDIVIDE0 : Weights := (1, 0, 0)

/-- Barycentric weights used by the generic subdivision path. -/
def _WEIGHTS_SUBDIVIDE1 : Weights := (1/2, 1/2, 0)

/-- Barycentric weights used by the generic subdivision path. -/
def _WEIGHTS_SUBDIVIDE2 : Weights := (1/2, 0, 1/2)

/-- Barycentric weights used by the generic subdivision path. -/
def _WEIGHTS_SUBDIVIDE3 : Weights := (0, 1/2, 1/2)

/-- Barycentric weights used by the generic subdivision path. -/
def _WEIGHTS_SUBDIVIDE4 : Weights := (0, 1, 0)

/-- Barycentric weights used by the generic subdivision path. -/
def _WEIGHTS_SUBDIVIDE5 : Weights := (0, 0, 1)

/-- Subdivide a surface into four sub-surfaces, embedding _subdivide_nodes of
the source: cached matrices for degrees 1 to 4, the generic specialization
otherwise. -/
def subdivide_nodes (nodes : List (List ℚ)) (degree : ℕ) :
    List (List ℚ) × List (List ℚ) × List (List ℚ) × List (List ℚ) :=
  if degree = 1 then
    (matrix_product LINEAR_SUBDIVIDE_A nodes,
     matrix_product LINEAR_SUBDIVIDE_B nodes,
     matrix_product LINEAR_SUBDIVIDE_C nodes,
     matrix_product LINEAR_SUBDIVIDE_D nodes)
  else if degree = 2 then
    (matrix_product QUADRATIC_SUBDIVIDE_A nodes,
     matrix_product QUADRATIC_SUBDIVIDE_B nodes,
     matrix_product QUADRATIC_SUBDIVIDE_C nodes,
     matrix_product QUADRATIC_SUBDIVIDE_D nodes)
  else if degree = 3 then
    (matrix_product CUBIC_SUBDIVIDE_A nodes,
     matrix_product CUBIC_SUBDIVIDE_B nodes,
     matrix_product CUBIC_SUBDIVIDE_C nodes,
     matrix_product CUBIC_SUBDIVIDE_D nodes)
  else if degree = 4 then
    (matrix_product QUARTIC_SUBDIVIDE_A nodes,
     matrix_product QUARTIC_SUBDIVIDE_B nodes,
     matrix_product QUARTIC_SUBDIVIDE_C nodes,
     matrix_product QUARTIC_SUBDIVIDE_D nodes)
  else
    (specialize_surface nodes degree
       _WEIGHTS_SUBDIVIDE0 _WEIGHTS_SUBDIVIDE1 _WEIGHTS_SUBDIVIDE2,
     specialize_surface nodes degree
       _WEIGHTS_SUBDIVIDE3 _WEIGHTS_SUBDIVIDE2 _WEIGHTS_SUBDIVIDE1,
     specialize_surface nodes degree
       _WEIGHTS_SUBDIVIDE1 _WEIGHTS_SUBDIVIDE4 _WEIGHTS_SUBDIVIDE3,
     specialize_surface nodes degree
       _WEIGHTS_SUBDIVIDE2 _WEIGHTS_SUBDIVIDE3 _WEIGHTS_SUBDIVIDE5)

/-- Maximum number of subdivision rounds of polynomial_sign. -/
def _MAX_POLY_SUBDIVISIONS : ℕ := 5

/-- Set-insert into the running list of observed signs; the source keeps a
Python set, which a duplicate-free list with membership test models (the
count of distinct elements is all the algorithm reads off it, plus the sole
element once a singleton is guaranteed). -/
def insertSign (signs : List ℤ) (x : ℤ) : List ℤ :=
  if x ∈ signs then signs else signs ++ [x]

/-- Signs of the three corner nodes (indices 0, degree and last) read from
column 0, mirroring poly[corner_indices, 0] of the source. -/
def cornerSigns (poly : List (List ℚ)) (degree : ℕ) : List ℤ :=
  [sgn ((poly.getD 0 []).getD 0 0),
   sgn ((poly.getD degree []).getD 0 0),
   sgn ((poly.getD (poly.length - 1) []).getD 0 0)]

/-- Mirrors np.all(poly == 0.0). -/
def allZero (poly : List (List ℚ)) : Bool :=
  poly.all (fun row => row.all (fun x => x = 0))

/-- Mirrors np.all(poly > 0.0). -/
def allPos (poly : List (List ℚ)) : Bool :=
  poly.all (fun row => row.all (fun x => 0 < x))

/-- Mirrors np.all(poly < 0.0). -/
def allNeg (poly : List (List ℚ)) : Bool :=
  poly.all (fun row => row.all (fun x => x < 0))

/-- Per-polynomial body of the round loop of polynomial_sign: add the corner
signs, then the uniform sign when the nodes are uniformly zero, positive or
negative, else keep the polynomial as undecided. -/
def processOne (degree : ℕ) (signs : List ℤ) (poly : List (List ℚ)) :
    List ℤ × List (List (List ℚ)) :=
  let signs1 := (cornerSigns poly degree).foldl insertSign signs
  if allZero poly then (insertSign signs1 0, [])
  else if allPos poly then (insertSign signs1 1, [])
  else if allNeg poly then (insertSign signs1 (-1), [])
  else (signs1, [poly])

/-- Per-round inner loop of polynomial_sign: process each sub-polynomial in
order, accumulating corner and uniform signs; return 0 early as soon as two
distinct signs have been seen, otherwise pass back the updated sign set and
the undecided polynomials in order. -/
def processPolys (degree : ℕ) :
    List ℤ → List (List (List ℚ)) → Sum ℤ (List ℤ × List (List (List ℚ)))
  | signs, [] => .inr (signs, [])
  | signs, poly :: rest =>
    let step := processOne degree signs poly
    if 1 < step.1.length then .inl 0
    else
      match processPolys degree step.1 rest with
      | .inl z => .inl z
      | .inr (s, u) => .inr (s, step.2 ++ u)

/-- Final read of the sign set: the source pops the sole element (the loop
structure guarantees at most one remains; an empty or larger set is an
error, as popping from an empty Python set raises). -/
def popSign (signs : List ℤ) : Except String ℤ :=
  match signs with
  | [s] => .ok s
  | _ => .error "sign set is not a singleton"

/-- Outer loop of polynomial_sign with the remaining round count as fuel:
each round processes the worklist, then subdivides the undecided
polynomials; an empty worklist returns the accumulated sign, and an
exhausted round count with work remaining is the failure of the source. -/
def polySignLoop (degree : ℕ) :
    ℕ → List ℤ → List (List (List ℚ)) → Except String ℤ
  | 0, signs, subPolys =>
    if subPolys.isEmpty then popSign signs
    else .error "Did not reach a conclusion after max subdivisions"
  | fuel + 1, signs, subPolys =>
    match processPolys degree signs subPolys with
    | .inl z => .ok z
    | .inr (signs2, undecided) =>
      let subPolys2 := undecided.flatMap (fun poly =>
        let q := subdivide_nodes poly degree
        [q.1, q.2.1, q.2.2.1, q.2.2.2])
      if subPolys2.isEmpty then popSign signs2
      else polySignLoop degree fuel signs2 subPolys2

/-- Determine the sign of a polynomial on the reference triangle, embedding
polynomial_sign of the source: the control nodes are an N x 1 array. -/
def polynomial_sign (poly_surface : List (List ℚ)) (degree : ℕ) :
    Except String ℤ :=
  polySignLoop degree _MAX_POLY_SUBDIVISIONS [] [poly_surface]

/-- Modelled from the spec: a triangular surface; the combination routines
only read its control nodes (the first node is the first corner). -/
structure Surface where
  nodes : List (ℚ × ℚ)
deriving DecidableEq, Repr

/-- Signature of locate(surface, point) -> parameter or None, the external
point-in-surface test; the combination routine is parameterized over it
since only whether a point was found drives the control flow. -/
abbrev Locate := Surface → (ℚ × ℚ) → Option (ℚ × ℚ)

/-- Determine whether one surface contains the other when there are no
points of intersection, embedding no_intersections of the source. -/
def no_intersections (locate : Locate) (surface1 surface2 : Surface) :
    List Surface :=
  let corner1 := surface1.nodes.getD 0 (0, 0)
  if (locate surface2 corner1).isSome then [surface1]
  else
    let corner2 := surface2.nodes.getD 0 (0, 0)
    if (locate surface1 corner2).isSome then [surface2]
    else []

/-- Modelled from the spec: an intersection node of the assembler.  The
source record (bezier._intersection_helpers.Intersection) carries optional
fields: the segment-end nodes synthesized by get_next leave the other
curve's fields as None.  The source compares nodes by object identity in
the walking loop; the id field records that identity, the position in the
master intersection list, with none for freshly synthesized nodes. -/
structure IntersectionNode where
  id : Option ℕ
  index_first : Option ℕ
  s : Option ℚ
  index_second : Option ℕ
  t : Option ℚ
  interior_curve : IntersectionClassification
deriving DecidableEq, Repr

/-- Object identity of nodes: two references are the same object exactly
when both live in the master list at the same position. -/
def isSameNode (a b : IntersectionNode) : Bool :=
  match a.id, b.id with
  | some i, some j => decide (i = j)
  | _, _ => false

/-- Python list.remove under identity equality: drop the first identical
element, no change when absent. -/
def removeNode (l : List IntersectionNode) (x : IntersectionNode) :
    List IntersectionNode :=
  match l with
  | [] => []
  | y :: ys => if isSameNode y x then ys else y :: removeNode ys x

/-- The classifications the assembler accepts for walking, mirroring the
module constant of the source. -/
def _ACCEPTABLE : List IntersectionClassification := [FIRST, SECOND]

/-- Strict comparison of optional parameters: the source compares raw float
fields, which are never None on the compared side; a None operand never
satisfies the comparison. -/
def optLt (a b : Option ℚ) : Bool :=
  match a, b with
  | some x, some y => decide (x < y)
  | _, _ => false

/-- Next node along the current first-curve edge or that edge's end,
embedding get_next_first of the source. -/
def get_next_first (intersection : IntersectionNode)
    (intersections : List IntersectionNode) : IntersectionNode :=
  let along_edge := intersections.foldl
    (fun acc other =>
      if other.index_first = intersection.index_first ∧
          optLt intersection.s other.s then
        if optLt other.s (some 1) ∧ other.interior_curve ∉ _ACCEPTABLE then
          acc
        else
          match acc with
          | none => some other
          | some best => if optLt other.s best.s then some other else acc
      else acc)
    none
  match along_edge with
  | none =>
    ⟨none, intersection.index_first, some 1, none, none, FIRST⟩
  | some a => a

/-- Next node along the current second-curve edge or that edge's end,
embedding get_next_second of the source. -/
def get_next_second (intersection : IntersectionNode)
    (intersections : List IntersectionNode) : IntersectionNode :=
  let along_edge := intersections.foldl
    (fun acc other =>
      if other.index_second = intersection.index_second ∧
          optLt intersection.t other.t then
        if optLt other.t (some 1) ∧ other.interior_curve ∉ _ACCEPTABLE then
          acc
        else
          match acc with
          | none => some other
          | some best => if optLt other.t best.t then some other else acc
      else acc)
    none
  match along_edge with
  | none =>
    ⟨none, none, none, intersection.index_second, some 1, SECOND⟩
  | some a => a

/-- Next node along the current edge, embedding get_next of the source; the
result is removed from the unused pool when present (by identity). -/
def get_next (intersection : IntersectionNode)
    (intersections unused : List IntersectionNode) :
    Except String (IntersectionNode × List IntersectionNode) :=
  if intersection.interior_curve = FIRST then
    let result := get_next_first intersection intersections
    .ok (result, removeNode unused result)
  else if intersection.interior_curve = SECOND then
    let result := get_next_second intersection intersections
    .ok (result, removeNode unused result)
  else
    .error "Cannot get next node if not starting from first or second"

/-- Rotate a node at the end of a segment to the beginning of the next
segment, embedding to_front of the source; a rotated node is replaced by an
already recorded equal intersection when one exists, and the final node is
removed from the unused pool (by identity). -/
def to_front (intersection : IntersectionNode)
    (intersections unused : List IntersectionNode) :
    IntersectionNode × List IntersectionNode :=
  let step1 : IntersectionNode × Bool :=
    if intersection.s = some 1 then
      (⟨none, intersection.index_first.map (fun i => (i + 1) % 3), some 0,
        intersection.index_second, intersection.t,
        intersection.interior_curve⟩, true)
    else (intersection, false)
  let step2 : IntersectionNode × Bool :=
    if step1.1.t = some 1 then
      (⟨none, step1.1.index_first, step1.1.s,
        step1.1.index_second.map (fun i => (i + 1) % 3), some 0,
        step1.1.interior_curve⟩, true)
    else step1
  let final :=
    if step2.2 then
      match intersections.find? (fun other =>
          decide ((other.s = step2.1.s ∧
              other.index_first = step2.1.index_first) ∨
            (other.t = step2.1.t ∧
              other.index_second = step2.1.index_second))) with
      | some other => other
      | none => step2.1
    else step2.1
  (final, removeNode unused final)

/-- An edge descriptor: which surface, edge index, start and end parameter
(optional exactly as stored on the nodes). -/
abbrev EdgeInfo := Bool × Option ℕ × Option ℚ × Option ℚ

/-- Convert a pair of intersection nodes into an edge descriptor, embedding
ends_to_curve of the source. -/
def ends_to_curve (start_node end_node : IntersectionNode) :
    Except String EdgeInfo :=
  if start_node.interior_curve = FIRST then
    if end_node.index_first ≠ start_node.index_first then .error _WRONG_CURVE
    else .ok (true, start_node.index_first, start_node.s, end_node.s)
  else if start_node.interior_curve = SECOND then
    if end_node.index_second ≠ start_node.index_second then
      .error _WRONG_CURVE
    else .ok (false, start_node.index_second, start_node.t, end_node.t)
  else .error "Segment start must be classified as FIRST or SECOND"

/-- The edge descriptors that spell out the whole first surface, in the
three rotations, mirroring FIRST_SURFACE_INFO of the source. -/
def FIRST_SURFACE_INFO : List (List EdgeInfo) :=
  [[(true, some 0, some 0, some 1), (true, some 1, some 0, some 1),
    (true, some 2, some 0, some 1)],
   [(true, some 1, some 0, some 1), (true, some 2, some 0, some 1),
    (true, some 0, some 0, some 1)],
   [(true, some 2, some 0, some 1), (true, some 0, some 0, some 1),
    (true, some 1, some 0, some 1)]]

/-- The edge descriptors that spell out the whole second surface, in the
three rotations, mirroring SECOND_SURFACE_INFO of the source. -/
def SECOND_SURFACE_INFO : List (List EdgeInfo) :=
  [[(false, some 0, some 0, some 1), (false, some 1, some 0, some 1),
    (false, some 2, some 0, some 1)],
   [(false, some 1, some 0, some 1), (false, some 2, some 0, some 1),
    (false, some 0, some 0, some 1)],
   [(false, some 2, some 0, some 1), (false, some 0, some 0, some 1),
    (false, some 1, some 0, some 1)]]

/-- Modelled from the spec: an edge of a curved polygon obtained by
specializing a surface edge to a parameter subinterval; specialize is
external (Curve.specialize), so the segment is kept symbolically as the
base curve with its start and end parameters. -/
structure EdgeSegment where
  curve : Curve
  start : Option ℚ
  stop : Option ℚ
deriving DecidableEq, Repr

/-- Edge lookup through an optional index (the descriptors store the index
the node carried; it is always present on the reachable paths). -/
def getEdgeOpt (edges : Edges) (i : Option ℕ) : Curve :=
  match i with
  | some n => getEdge edges n
  | none => ⟨[]⟩

/-- A result entry of the combination routines: a whole surface (total
containment) or a curved polygon given by its edge segments. -/
inductive SurfacePolygon where
  | surf : Surface → SurfacePolygon
  | poly : List EdgeSegment → SurfacePolygon
deriving DecidableEq, Repr

/-- Convert a list of edge descriptors into a curved polygon, or into the
matching whole surface when the descriptors spell one out, embedding
make_intersection of the source. -/
def make_intersection (edge_info : List EdgeInfo) (surface1 : Surface)
    (edges1 : Edges) (surface2 : Surface) (edges2 : Edges) : SurfacePolygon :=
  if edge_info ∈ FIRST_SURFACE_INFO then .surf surface1
  else if edge_info ∈ SECOND_SURFACE_INFO then .surf surface2
  else
    .poly (edge_info.map (fun info =>
      if info.1 then ⟨getEdgeOpt edges1 info.2.1, info.2.2.1, info.2.2.2⟩
      else ⟨getEdgeOpt edges2 info.2.1, info.2.2.1, info.2.2.2⟩))

/-- The inner while loop of basic_interior_combine: walk from the loop start
along edges until the walk returns to the start, accumulating the edge-end
pairs; one more pair than max_edges is the loop-detection failure of the
source.  The fuel only bounds the recursion; the length check fires first
whenever the walk does not close, so fuel max_edges + 2 is never exhausted
on the reachable paths. -/
def walkLoop (intersections : List IntersectionNode) (max_edges : ℕ)
    (start : IntersectionNode) :
    ℕ → IntersectionNode → List (IntersectionNode × IntersectionNode) →
      List IntersectionNode →
    Except String
      (List (IntersectionNode × IntersectionNode) × List IntersectionNode)
  | 0, _, _, _ => .error "walk did not terminate"
  | fuel + 1, next_node, edge_ends, unused =>
    if isSameNode next_node start then .ok (edge_ends, unused)
    else
      let tf := to_front next_node intersections unused
      if isSameNode tf.1 start then .ok (edge_ends, tf.2)
      else
        match get_next tf.1 intersections tf.2 with
        | .error e => .error e
        | .ok (next2, unused2) =>
          let edge_ends2 := edge_ends ++ [(tf.1, next2)]
          if max_edges < edge_ends2.length then
            .error "Unexpected number of edges"
          else
            walkLoop intersections max_edges start fuel next2 edge_ends2
              unused2

/-- Convert every edge-end pair of a walk into its edge descriptor,
propagating the first error. -/
def edgeInfoOf :
    List (IntersectionNode × IntersectionNode) →
      Except String (List EdgeInfo)
  | [] => .ok []
  | (a, b) :: rest =>
    match ends_to_curve a b with
    | .error e => .error e
    | .ok info =>
      match edgeInfoOf rest with
      | .error e => .error e
      | .ok infos => .ok (info :: infos)

/-- The outer while loop of basic_interior_combine: pop the last unused
acceptable crossing, walk its loop, convert it into a result entry, repeat
until the pool is exhausted.  Every iteration shrinks the pool, so fuel
equal to the pool size is never exhausted. -/
def bicLoop (intersections : List IntersectionNode) (surface1 : Surface)
    (edges1 : Edges) (surface2 : Surface) (edges2 : Edges) (max_edges : ℕ) :
    ℕ → List IntersectionNode → List SurfacePolygon →
    Except String (List SurfacePolygon)
  | 0, unused, result =>
    if unused.isEmpty then .ok result
    else .error "interior combination did not terminate"
  | fuel + 1, unused, result =>
    match unused.getLast? with
    | none => .ok result
    | some start =>
      let rest := unused.dropLast
      match get_next start intersections rest with
      | .error e => .error e
      | .ok (next_node, unused1) =>
        match walkLoop intersections max_edges start (max_edges + 2)
            next_node [(start, next_node)] unused1 with
        | .error e => .error e
        | .ok (edge_ends, unused2) =>
          match edgeInfoOf edge_ends with
          | .error e => .error e
          | .ok edge_info =>
            bicLoop intersections surface1 edges1 surface2 edges2 max_edges
              fuel unused2
              (result ++
                [make_intersection edge_info surface1 edges1 surface2 edges2])

/-- Combine the crossings that do involve interiors into curved polygons,
embedding basic_interior_combine of the source. -/
def basic_interior_combine (intersections : List IntersectionNode)
    (surface1 : Surface) (edges1 : Edges) (surface2 : Surface)
    (edges2 : Edges) (max_edges : ℕ) : Except String (List SurfacePolygon) :=
  let unused := intersections.filter
    (fun i => decide (i.interior_curve ∈ _ACCEPTABLE))
  bicLoop intersections surface1 edges1 surface2 edges2 max_edges
    unused.length unused []

/-- Resolve a surface pair all of whose crossings are tangential, embedding
tangent_only_intersections of the source; the source collects the distinct
classifications in a set, modelled by a duplicate-free list. -/
def tangent_only_intersections (intersections : List IntersectionNode)
    (surface1 surface2 : Surface) : Except String (List Surface) :=
  match (intersections.map (fun i => i.interior_curve)).dedup with
  | [point_type] =>
    if point_type = OPPOSED then .ok []
    else if point_type = IGNORED_CORNER then .ok []
    else if point_type = TANGENT_FIRST then .ok [surface1]
    else if point_type = TANGENT_SECOND then .ok [surface2]
    else .error "Point type not for tangency"
  | _ => .error "Unexpected value, types should all match"

/-- Combine curve-curve intersections into curved polygons or contained
surfaces, embedding combine_intersections of the source. -/
def combine_intersections (locate : Locate)
    (intersections : List IntersectionNode) (surface1 : Surface)
    (edges1 : Edges) (surface2 : Surface) (edges2 : Edges) :
    Except String (List SurfacePolygon) :=
  if intersections.isEmpty then
    .ok ((no_intersections locate surface1 surface2).map .surf)
  else
    match basic_interior_combine intersections surface1 edges1 surface2
        edges2 10 with
    | .error e => .error e
    | .ok result =>
      if result.isEmpty then
        match tangent_only_intersections intersections surface1 surface2 with
        | .error e => .error e
        | .ok surfs => .ok (surfs.map .surf)
      else .ok result


/-- One half, built from raw numerator and denominator so that concrete
runs of the assembler reduce inside the kernel. -/
def exampleHalf : ℚ := ⟨1, 2, by decide, by decide⟩

/-- Example crossing where the first surface's interior continues: edge 0 of
the first surface at s = 1/2 meets edge 2 of the second at t = 1/2. -/
def exampleNode0 : IntersectionNode :=
  ⟨some 0, some 0, some exampleHalf, some 2, some exampleHalf, FIRST⟩

/-- Example crossing where the second surface's interior continues: edge 1
of the first surface at s = 1/2 meets edge 0 of the second at t = 1/2. -/
def exampleNode1 : IntersectionNode :=
  ⟨some 1, some 1, some exampleHalf, some 0, some exampleHalf, SECOND⟩

/-- Example first surface (a linear triangle). -/
def exampleSurface1 : Surface := ⟨[(0, 0), (1, 0), (0, 1)]⟩

/-- Example second surface (a linear triangle). -/
def exampleSurface2 : Surface := ⟨[(2, 0), (3, 0), (2, 1)]⟩

/-- Edges of the example first surface. -/
def exampleEdges1 : Edges :=
  (⟨[(0, 0), (1, 0)]⟩, ⟨[(1, 0), (0, 1)]⟩, ⟨[(0, 1), (0, 0)]⟩)

/-- Edges of the example second surface. -/
def exampleEdges2 : Edges :=
  (⟨[(2, 0), (3, 0)]⟩, ⟨[(3, 0), (2, 1)]⟩, ⟨[(2, 1), (2, 0)]⟩)

/-- The five edge segments of the curved polygon the assembler produces on
the example crossings. -/
def exampleResultSegments : List EdgeSegment :=
  [⟨⟨[(2, 0), (3, 0)]⟩, some exampleHalf, some 1⟩,
   ⟨⟨[(3, 0), (2, 1)]⟩, some 0, some 1⟩,
   ⟨⟨[(2, 1), (2, 0)]⟩, some 0, some exampleHalf⟩,
   ⟨⟨[(0, 0), (1, 0)]⟩, some exampleHalf, some 1⟩,
   ⟨⟨[(1, 0), (0, 1)]⟩, some 0, some exampleHalf⟩]

/-- A sign list is well formed when every element is -1, 0 or 1. -/
def SignsOK (signs : List ℤ) : Prop :=
  ∀ x ∈ signs, x = -1 ∨ x = 0 ∨ x = 1

/-- Helper: an intersection that is not at the start of either edge is never
an ignored corner. -/
theorem ignored_corner_of_not_corner (inter : Intersection)
    (tangent_s tangent_t : ℚ × ℚ) (edges1 edges2 : Edges)
    (hs : inter.s ≠ 0) (ht : inter.t ≠ 0) :
    ignored_corner inter tangent_s tangent_t edges1 edges2 = false := by
  simp [ignored_corner, hs, ht]

/-- Helper: the tangency resolver never classifies as an ignored corner. -/
theorem classify_tangent_intersection_ne_ignored (getCurvature : GetCurvature)
    (inter : Intersection) (nodes1 : List (ℚ × ℚ)) (tangent1 : ℚ × ℚ)
    (nodes2 : List (ℚ × ℚ)) (tangent2 : ℚ × ℚ) :
    classify_tangent_intersection getCurvature inter nodes1 tangent1
      nodes2 tangent2 ≠ .ok IGNORED_CORNER := by
  simp only [classify_tangent_intersection]
  split_ifs <;> simp

/-- C1: for an intersection with parameters away from every edge endpoint
(s and t different from both 0 and 1), classify_intersection returns FIRST
when the planar cross product of the two tangent vectors is negative, SECOND
when it is positive, and defers to classify_tangent_intersection exactly when
it is zero; on the doctest quadratics at s = 1/4, t = 1/2 it returns FIRST. -/
theorem classify_intersection_cross_sign (getCurvature : GetCurvature)
    (inter : Intersection) (edges1 edges2 : Edges)
    (hs1 : inter.s ≠ 1) (ht1 : inter.t ≠ 1)
    (hs0 : inter.s ≠ 0) (ht0 : inter.t ≠ 0) :
    (cross_product
        (evaluate_hodograph inter.s (getEdge edges1 inter.index_first).nodes)
        (evaluate_hodograph inter.t (getEdge edges2 inter.index_second).nodes)
          < 0 →
      classify_intersection getCurvature inter edges1 edges2 = .ok FIRST) ∧
    (0 < cross_product
        (evaluate_hodograph inter.s (getEdge edges1 inter.index_first).nodes)
        (evaluate_hodograph inter.t (getEdge edges2 inter.index_second).nodes) →
      classify_intersection getCurvature inter edges1 edges2 = .ok SECOND) ∧
    (cross_product
        (evaluate_hodograph inter.s (getEdge edges1 inter.index_first).nodes)
        (evaluate_hodograph inter.t (getEdge edges2 inter.index_second).nodes)
          = 0 →
      classify_intersection getCurvature inter edges1 edges2 =
        classify_tangent_intersection getCurvature inter
          (getEdge edges1 inter.index_first).nodes
          (evaluate_hodograph inter.s (getEdge edges1 inter.index_first).nodes)
          (getEdge edges2 inter.index_second).nodes
          (evaluate_hodograph inter.t
            (getEdge edges2 inter.index_second).nodes)) ∧
    (classify_intersection (fun _ _ _ => 0) ⟨0, 1/4, 0, 1/2⟩
        (doctest_curve1, doctest_curve1, doctest_curve1)
        (doctest_curve2, doctest_curve2, doctest_curve2) = .ok FIRST) := by
  have hic := ignored_corner_of_not_corner inter
    (evaluate_hodograph inter.s (getEdge edges1 inter.index_first).nodes)
    (evaluate_hodograph inter.t (getEdge edges2 inter.index_second).nodes)
    edges1 edges2 hs0 ht0
  refine ⟨?_, ?_, ?_, ?_⟩
  · intro hneg
    simp [classify_intersection, hs1, ht1, hic, hneg]
  · intro hpos
    simp [classify_intersection, hs1, ht1, hic, hpos, not_lt.mpr hpos.le]
  · intro hzero
    simp [classify_intersection, hs1, ht1, hic, hzero]
  · norm_num [classify_intersection, ignored_corner, evaluate_hodograph,
      deCasteljau, deCasteljauAux, deCasteljauStep, hodographNodes,
      cross_product, getEdge, doctest_curve1, doctest_curve2]

/-- Witness for C1: the doctest quadratics at s = 1/4, t = 1/2 have tangent
cross product -7/8 < 0 and are classified FIRST. -/
theorem classify_intersection_cross_sign_witness :
    classify_intersection (fun _ _ _ => 0) ⟨0, 1/4, 0, 1/2⟩
        (doctest_curve1, doctest_curve1, doctest_curve1)
        (doctest_curve2, doctest_curve2, doctest_curve2) = .ok FIRST :=
  (classify_intersection_cross_sign (fun _ _ _ => 0) ⟨0, 1/4, 0, 1/2⟩
    (doctest_curve1, doctest_curve1, doctest_curve1)
    (doctest_curve2, doctest_curve2, doctest_curve2)
    (by norm_num) (by norm_num) (by norm_num) (by norm_num)).2.2.2

/-- C2: classify_intersection signals an error whenever the intersection lies
at the end of either edge (s = 1 or t = 1), for every pair of edge tuples. -/
theorem classify_intersection_end_edge_error (getCurvature : GetCurvature)
    (inter : Intersection) (edges1 edges2 : Edges)
    (h : inter.s = 1 ∨ inter.t = 1) :
    classify_intersection getCurvature inter edges1 edges2 =
      .error "Intersection occurs at the end of an edge" := by
  simp [classify_intersection, h]

/-- Witness for C2: an intersection with s = 1 is rejected. -/
theorem classify_intersection_end_edge_error_witness :
    classify_intersection (fun _ _ _ => 0) ⟨0, 1, 0, 1/2⟩
        (doctest_curve1, doctest_curve1, doctest_curve1)
        (doctest_curve2, doctest_curve2, doctest_curve2) =
      .error "Intersection occurs at the end of an edge" :=
  classify_intersection_end_edge_error (fun _ _ _ => 0) ⟨0, 1, 0, 1/2⟩
    (doctest_curve1, doctest_curve1, doctest_curve1)
    (doctest_curve2, doctest_curve2, doctest_curve2) (Or.inl rfl)

/-- C10: the corner test returns false for every intersection with s and t
both nonzero, and consequently classify_intersection can return
IGNORED_CORNER only when the intersection lies at the start of an edge. -/
theorem ignored_corner_requires_corner :
    (∀ (inter : Intersection) (tangent_s tangent_t : ℚ × ℚ)
        (edges1 edges2 : Edges), inter.s ≠ 0 → inter.t ≠ 0 →
      ignored_corner inter tangent_s tangent_t edges1 edges2 = false) ∧
    (∀ (getCurvature : GetCurvature) (inter : Intersection)
        (edges1 edges2 : Edges), inter.s ≠ 0 → inter.t ≠ 0 →
      classify_intersection getCurvature inter edges1 edges2 ≠
        .ok IGNORED_CORNER) := by
  constructor
  · intro inter ts tt e1 e2 hs ht
    exact ignored_corner_of_not_corner inter ts tt e1 e2 hs ht
  · intro gc inter e1 e2 hs ht
    have hic := ignored_corner_of_not_corner inter
      (evaluate_hodograph inter.s (getEdge e1 inter.index_first).nodes)
      (evaluate_hodograph inter.t (getEdge e2 inter.index_second).nodes)
      e1 e2 hs ht
    have hnt := classify_tangent_intersection_ne_ignored gc inter
      (getEdge e1 inter.index_first).nodes
      (evaluate_hodograph inter.s (getEdge e1 inter.index_first).nodes)
      (getEdge e2 inter.index_second).nodes
      (evaluate_hodograph inter.t (getEdge e2 inter.index_second).nodes)
    simp only [classify_intersection, hic]
    split_ifs <;> simp_all

/-- Witness for C10: a concrete interior intersection is not classified as an
ignored corner. -/
theorem ignored_corner_requires_corner_witness :
    ignored_corner ⟨0, 1/4, 0, 1/2⟩ (1, 0) (0, 1)
        (doctest_curve1, doctest_curve1, doctest_curve1)
        (doctest_curve2, doctest_curve2, doctest_curve2) = false ∧
    classify_intersection (fun _ _ _ => 0) ⟨0, 1/4, 0, 1/2⟩
        (doctest_curve1, doctest_curve1, doctest_curve1)
        (doctest_curve2, doctest_curve2, doctest_curve2) ≠
      .ok IGNORED_CORNER :=
  ⟨ignored_corner_requires_corner.1 ⟨0, 1/4, 0, 1/2⟩ (1, 0) (0, 1)
      (doctest_curve1, doctest_curve1, doctest_curve1)
      (doctest_curve2, doctest_curve2, doctest_curve2)
      (by norm_num) (by norm_num),
    ignored_corner_requires_corner.2 (fun _ _ _ => 0) ⟨0, 1/4, 0, 1/2⟩
      (doctest_curve1, doctest_curve1, doctest_curve1)
      (doctest_curve2, doctest_curve2, doctest_curve2)
      (by norm_num) (by norm_num)⟩

/-- C3: at a tangency whose tangent vectors have non-negative dot product
(same direction), the curve with the larger curvature wins: larger first
curvature gives TANGENT_FIRST, larger second curvature gives TANGENT_SECOND,
and exactly equal curvatures signal the same-curvature error. -/
theorem classify_tangent_same_direction (getCurvature : GetCurvature)
    (inter : Intersection) (nodes1 : List (ℚ × ℚ)) (tangent1 : ℚ × ℚ)
    (nodes2 : List (ℚ × ℚ)) (tangent2 : ℚ × ℚ)
    (hdot : 0 ≤ tangent1.1 * tangent2.1 + tangent1.2 * tangent2.2) :
    (getCurvature nodes2 tangent2 inter.t < getCurvature nodes1 tangent1 inter.s →
      classify_tangent_intersection getCurvature inter nodes1 tangent1
        nodes2 tangent2 = .ok TANGENT_FIRST) ∧
    (getCurvature nodes1 tangent1 inter.s < getCurvature nodes2 tangent2 inter.t →
      classify_tangent_intersection getCurvature inter nodes1 tangent1
        nodes2 tangent2 = .ok TANGENT_SECOND) ∧
    (getCurvature nodes1 tangent1 inter.s = getCurvature nodes2 tangent2 inter.t →
      classify_tangent_intersection getCurvature inter nodes1 tangent1
        nodes2 tangent2 = .error _SAME_CURVATURE) := by
  refine ⟨?_, ?_, ?_⟩ <;> intro h <;> dsimp only [classify_tangent_intersection] <;>
    rw [if_neg (not_lt.mpr hdot)]
  · rw [if_pos h]
  · rw [if_neg (not_lt.mpr h.le), if_pos h]
  · rw [if_neg (not_lt.mpr h.le), if_neg (not_lt.mpr h.ge)]

/-- Witness for C3: with curvatures 2 and 1 read off a concrete curvature
function and parallel tangents, the result is TANGENT_FIRST. -/
theorem classify_tangent_same_direction_witness :
    classify_tangent_intersection (fun _ _ p => p) ⟨0, 2, 0, 1⟩
      [] (1, 0) [] (1, 0) = .ok TANGENT_FIRST :=
  (classify_tangent_same_direction (fun _ _ p => p) ⟨0, 2, 0, 1⟩
    [] (1, 0) [] (1, 0) (by norm_num)).1 (by norm_num)

/-- C4: at a tangency whose tangent vectors have negative dot product
(opposite directions): with equal curvature signs, positive sign gives
OPPOSED and negative sign the overlapping-arcs error; with differing signs,
equal curvature magnitudes give the same-curvature error, the first sign
matching the sign of the magnitude difference gives OPPOSED, and otherwise
the overlapping-arcs error is signaled. -/
theorem classify_tangent_opposite_direction (getCurvature : GetCurvature)
    (inter : Intersection) (nodes1 : List (ℚ × ℚ)) (tangent1 : ℚ × ℚ)
    (nodes2 : List (ℚ × ℚ)) (tangent2 : ℚ × ℚ)
    (hdot : tangent1.1 * tangent2.1 + tangent1.2 * tangent2.2 < 0) :
    (sgn (getCurvature nodes1 tangent1 inter.s) =
        sgn (getCurvature nodes2 tangent2 inter.t) →
      (sgn (getCurvature nodes1 tangent1 inter.s) = 1 →
        classify_tangent_intersection getCurvature inter nodes1 tangent1
          nodes2 tangent2 = .ok OPPOSED) ∧
      (sgn (getCurvature nodes1 tangent1 inter.s) = -1 →
        classify_tangent_intersection getCurvature inter nodes1 tangent1
          nodes2 tangent2 = .error _BAD_TANGENT)) ∧
    (sgn (getCurvature nodes1 tangent1 inter.s) ≠
        sgn (getCurvature nodes2 tangent2 inter.t) →
      (|getCurvature nodes1 tangent1 inter.s| -
          |getCurvature nodes2 tangent2 inter.t| = 0 →
        classify_tangent_intersection getCurvature inter nodes1 tangent1
          nodes2 tangent2 = .error _SAME_CURVATURE) ∧
      (|getCurvature nodes1 tangent1 inter.s| -
          |getCurvature nodes2 tangent2 inter.t| ≠ 0 →
        sgn (getCurvature nodes1 tangent1 inter.s) =
          sgn (|getCurvature nodes1 tangent1 inter.s| -
            |getCurvature nodes2 tangent2 inter.t|) →
        classify_tangent_intersection getCurvature inter nodes1 tangent1
          nodes2 tangent2 = .ok OPPOSED) ∧
      (|getCurvature nodes1 tangent1 inter.s| -
          |getCurvature nodes2 tangent2 inter.t| ≠ 0 →
        sgn (getCurvature nodes1 tangent1 inter.s) ≠
          sgn (|getCurvature nodes1 tangent1 inter.s| -
            |getCurvature nodes2 tangent2 inter.t|) →
        classify_tangent_intersection getCurvature inter nodes1 tangent1
          nodes2 tangent2 = .error _BAD_TANGENT)) := by
  constructor
  · intro hsame
    constructor <;> intro hsgn <;> dsimp only [classify_tangent_intersection]
    · rw [if_pos hdot, if_pos hsame, if_pos hsgn]
    · have hne : sgn (getCurvature nodes1 tangent1 inter.s) ≠ 1 := by
        rw [hsgn]; decide
      rw [if_pos hdot, if_pos hsame, if_neg hne]
  · intro hdiff
    refine ⟨?_, ?_, ?_⟩
    · intro hzero
      dsimp only [classify_tangent_intersection]
      rw [if_pos hdot, if_neg hdiff, if_pos hzero]
    · intro hnz hmatch
      dsimp only [classify_tangent_intersection]
      rw [if_pos hdot, if_neg hdiff, if_neg hnz, if_pos hmatch]
    · intro hnz hmis
      dsimp only [classify_tangent_intersection]
      rw [if_pos hdot, if_neg hdiff, if_neg hnz, if_neg hmis]

/-- Witness for C4: opposite tangents with both curvatures positive (signs
equal to 1) give OPPOSED. -/
theorem classify_tangent_opposite_direction_witness :
    classify_tangent_intersection (fun _ _ p => p) ⟨0, 2, 0, 3⟩
      [] (1, 0) [] (-1, 0) = .ok OPPOSED :=
  ((classify_tangent_opposite_direction (fun _ _ p => p) ⟨0, 2, 0, 3⟩
    [] (1, 0) [] (-1, 0) (by norm_num)).1
      (by norm_num [sgn])).1 (by norm_num [sgn])

/-- Helper: the sign function only takes the values -1, 0 and 1. -/
theorem sgn_trichotomy (q : ℚ) : sgn q = -1 ∨ sgn q = 0 ∨ sgn q = 1 := by
  unfold sgn
  split_ifs <;> simp

/-- Helper: inserting never shortens the sign list. -/
theorem insertSign_length_le (signs : List ℤ) (x : ℤ) :
    signs.length ≤ (insertSign signs x).length := by
  unfold insertSign
  split <;> simp

/-- Helper: insertion preserves well-formed sign lists. -/
theorem insertSign_ok (signs : List ℤ) (x : ℤ) (hs : SignsOK signs)
    (hx : x = -1 ∨ x = 0 ∨ x = 1) : SignsOK (insertSign signs x) := by
  unfold insertSign
  split
  · exact hs
  · intro y hy
    rcases List.mem_append.mp hy with h | h
    · exact hs y h
    · simp only [List.mem_singleton] at h
      subst h
      exact hx

/-- Helper: folding insertions of well-formed values preserves
well-formedness. -/
theorem foldl_insertSign_ok (xs : List ℤ) :
    ∀ signs, SignsOK signs → (∀ x ∈ xs, x = -1 ∨ x = 0 ∨ x = 1) →
    SignsOK (xs.foldl insertSign signs) := by
  induction xs with
  | nil => intro signs hs _; exact hs
  | cons a as ih =>
    intro signs hs hx
    exact ih _ (insertSign_ok _ _ hs (hx a (by simp)))
      (fun x h => hx x (by simp [h]))

/-- Helper: corner signs are always -1, 0 or 1. -/
theorem cornerSigns_ok (poly : List (List ℚ)) (degree : ℕ) :
    ∀ x ∈ cornerSigns poly degree, x = -1 ∨ x = 0 ∨ x = 1 := by
  intro x hx
  simp only [cornerSigns, List.mem_cons, List.not_mem_nil, or_false] at hx
  rcases hx with h | h | h <;> subst h <;> exact sgn_trichotomy _

/-- Helper: the per-polynomial body preserves well-formed sign lists. -/
theorem processOne_fst_ok (degree : ℕ) (signs : List ℤ) (poly : List (List ℚ))
    (hs : SignsOK signs) : SignsOK (processOne degree signs poly).1 := by
  have hs1 : SignsOK ((cornerSigns poly degree).foldl insertSign signs) :=
    foldl_insertSign_ok _ _ hs (cornerSigns_ok _ _)
  unfold processOne
  split_ifs <;>
    first
      | exact insertSign_ok _ _ hs1 (by norm_num)
      | exact hs1

/-- Helper: the per-polynomial body never shrinks the sign list below the
folded corner signs. -/
theorem processOne_fst_length (degree : ℕ) (signs : List ℤ)
    (poly : List (List ℚ)) :
    ((cornerSigns poly degree).foldl insertSign signs).length ≤
      (processOne degree signs poly).1.length := by
  unfold processOne
  split_ifs <;> first | exact insertSign_length_le _ _ | exact le_refl _

/-- Helper: the per-round loop returns 0 on an early exit, and a well-formed
sign list otherwise when started from one. -/
theorem processPolys_ok (degree : ℕ) (polys : List (List (List ℚ))) :
    ∀ signs, SignsOK signs →
      (∀ z, processPolys degree signs polys = .inl z → z = 0) ∧
      (∀ s u, processPolys degree signs polys = .inr (s, u) → SignsOK s) := by
  induction polys with
  | nil =>
    intro signs hs
    constructor
    · intro z h
      simp [processPolys] at h
    · intro s u h
      simp only [processPolys, Sum.inr.injEq, Prod.mk.injEq] at h
      rw [← h.1]
      exact hs
  | cons poly rest ih =>
    intro signs hs
    have hone := processOne_fst_ok degree signs poly hs
    constructor
    · intro z h
      simp only [processPolys] at h
      split at h
      · cases h
        rfl
      · cases hp : processPolys degree (processOne degree signs poly).1 rest with
        | inl z2 =>
          rw [hp] at h
          cases h
          exact (ih _ hone).1 _ hp
        | inr p =>
          rw [hp] at h
          cases h
    · intro s u h
      simp only [processPolys] at h
      split at h
      · cases h
      · cases hp : processPolys degree (processOne degree signs poly).1 rest with
        | inl z2 =>
          rw [hp] at h
          cases h
        | inr p =>
          rw [hp] at h
          cases h
          exact (ih _ hone).2 _ _ (by rw [hp])

/-- Helper: getD at an in-bounds index is an element of the list. -/
theorem getD_mem_of_lt {α : Type _} (l : List α) (n : ℕ) (d : α)
    (h : n < l.length) : l.getD n d ∈ l := by
  rw [List.getD_eq_getElem?_getD, List.getElem?_eq_getElem h, Option.getD_some]
  exact List.getElem_mem h

/-- Helper: popSign only returns a member of the sign list. -/
theorem popSign_mem (signs : List ℤ) (r : ℤ) (h : popSign signs = .ok r) :
    r ∈ signs := by
  unfold popSign at h
  split at h
  · cases h
    simp
  · cases h

/-- Helper: the succ-step equation of the outer loop. -/
theorem polySignLoop_succ (degree fuel : ℕ) (signs : List ℤ)
    (subPolys : List (List (List ℚ))) :
    polySignLoop degree (fuel + 1) signs subPolys =
      match processPolys degree signs subPolys with
      | .inl z => .ok z
      | .inr (signs2, undecided) =>
        let subPolys2 := undecided.flatMap (fun poly =>
          let q := subdivide_nodes poly degree
          [q.1, q.2.1, q.2.2.1, q.2.2.2])
        if subPolys2.isEmpty then popSign signs2
        else polySignLoop degree fuel signs2 subPolys2 := rfl

/-- Helper: a successful loop run only yields -1, 0 or 1. -/
theorem polySignLoop_ok_tri (degree : ℕ) (fuel : ℕ) :
    ∀ (signs : List ℤ) (polys : List (List (List ℚ))) (r : ℤ), SignsOK signs →
      polySignLoop degree fuel signs polys = .ok r →
      r = -1 ∨ r = 0 ∨ r = 1 := by
  induction fuel with
  | zero =>
    intro signs polys r hs h
    simp only [polySignLoop] at h
    split at h
    · exact hs r (popSign_mem _ _ h)
    · cases h
  | succ n ih =>
    intro signs polys r hs h
    rw [polySignLoop_succ] at h
    cases hp : processPolys degree signs polys with
    | inl z =>
      rw [hp] at h
      cases h
      have hz := (processPolys_ok degree polys signs hs).1 _ hp
      subst hz
      norm_num
    | inr p =>
      obtain ⟨s2, und⟩ := p
      rw [hp] at h
      have hs2 : SignsOK s2 := (processPolys_ok degree polys signs hs).2 _ _ hp
      dsimp only at h
      split at h
      · exact hs2 r (popSign_mem _ _ h)
      · exact ih _ _ _ hs2 h

/-- Helper: folding the three corner signs from the empty set yields at
least two elements when the three are not all equal. -/
theorem foldl_insert_three (a b c : ℤ) (h : ¬ (a = b ∧ a = c)) :
    1 < (([a, b, c] : List ℤ).foldl insertSign []).length := by
  by_cases hab : a = b
  · subst hab
    have hac : c ≠ a := fun h2 => h ⟨rfl, h2.symm⟩
    simp [insertSign, hac]
  · have hba : b ≠ a := Ne.symm hab
    have h2 : (([a, b, c] : List ℤ).foldl insertSign []) =
        insertSign [a, b] c := by
      simp [insertSign, hba]
    rw [h2]
    calc (1 : ℕ) < 2 := one_lt_two
    _ = ([a, b] : List ℤ).length := by simp
    _ ≤ _ := insertSign_length_le _ _

/-- C8: a successful polynomial_sign run yields a value among -1, 0 and 1;
it yields 1 whenever all coefficients are strictly positive (any degree with
well-formed corner indexing), and 0 whenever the three corner coefficients
(indices 0, degree and last) do not all share one sign. -/
theorem polynomial_sign_spec :
    (∀ (poly : List (List ℚ)) (degree : ℕ) (r : ℤ),
      polynomial_sign poly degree = .ok r → r = -1 ∨ r = 0 ∨ r = 1) ∧
    (∀ (poly : List (List ℚ)) (degree : ℕ),
      degree < poly.length → (∀ row ∈ poly, row ≠ []) →
      (∀ row ∈ poly, ∀ x ∈ row, 0 < x) →
      polynomial_sign poly degree = .ok 1) ∧
    (∀ (poly : List (List ℚ)) (degree : ℕ),
      degree < poly.length →
      ¬ (sgn ((poly.getD 0 []).getD 0 0) = sgn ((poly.getD degree []).getD 0 0) ∧
          sgn ((poly.getD 0 []).getD 0 0) =
            sgn ((poly.getD (poly.length - 1) []).getD 0 0)) →
      polynomial_sign poly degree = .ok 0) := by
  refine ⟨?_, ?_, ?_⟩
  · intro poly degree r h
    exact polySignLoop_ok_tri degree _ [] [poly] r (by intro x hx; cases hx) h
  · intro poly degree hdeg hrows hpos
    have hlen0 : 0 < poly.length := Nat.lt_of_le_of_lt (Nat.zero_le _) hdeg
    have hcorner : ∀ i, i < poly.length →
        sgn ((poly.getD i []).getD 0 0) = 1 := by
      intro i hi
      have hrow : poly.getD i [] ∈ poly := getD_mem_of_lt _ _ _ hi
      have hne := hrows _ hrow
      obtain ⟨x, xs, hx⟩ : ∃ x xs, poly.getD i [] = x :: xs := by
        cases hval : poly.getD i [] with
        | nil => exact absurd hval hne
        | cons a l => exact ⟨a, l, rfl⟩
      have hxpos : 0 < x := hpos _ hrow x (by rw [hx]; simp)
      rw [hx]
      simp [sgn, hxpos]
    have hfold : (cornerSigns poly degree).foldl insertSign [] = [1] := by
      have h1 : cornerSigns poly degree = [1, 1, 1] := by
        simp only [cornerSigns, hcorner 0 hlen0, hcorner degree hdeg,
          hcorner (poly.length - 1) (by omega)]
      rw [h1]
      simp [insertSign]
    have hz : allZero poly = false := by
      obtain ⟨p, rest, hp⟩ : ∃ p rest, poly = p :: rest := by
        cases poly with
        | nil => simp at hlen0
        | cons a l => exact ⟨a, l, rfl⟩
      subst hp
      obtain ⟨x, xs, hx⟩ : ∃ x xs, p = x :: xs := by
        cases hval : p with
        | nil => exact absurd hval (hrows p (by simp))
        | cons a l => exact ⟨a, l, rfl⟩
      subst hx
      have hxpos : 0 < x := hpos (x :: xs) (by simp) x (by simp)
      simp [allZero, hxpos.ne']
    have hap : allPos poly = true := by
      simp only [allPos, List.all_eq_true, decide_eq_true_eq]
      intro row hr x hx
      exact hpos row hr x hx
    have hone : processOne degree [] poly = ([1], []) := by
      unfold processOne
      rw [hfold, hz]
      simp only [Bool.false_eq_true, if_false, hap, if_true]
      simp [insertSign]
    have hproc : processPolys degree [] [poly] = .inr ([1], []) := by
      simp only [processPolys, hone]
      norm_num [processPolys]
    show polySignLoop degree _MAX_POLY_SUBDIVISIONS [] [poly] = .ok 1
    rw [show _MAX_POLY_SUBDIVISIONS = 4 + 1 from rfl, polySignLoop_succ, hproc]
    simp [popSign]
  · intro poly degree hdeg hmix
    have hlen : 1 < ((cornerSigns poly degree).foldl insertSign []).length :=
      foldl_insert_three _ _ _ hmix
    have hproc : processPolys degree [] [poly] = .inl 0 := by
      simp only [processPolys]
      rw [if_pos (lt_of_lt_of_le hlen (processOne_fst_length degree [] poly))]
    show polySignLoop degree _MAX_POLY_SUBDIVISIONS [] [poly] = .ok 0
    rw [show _MAX_POLY_SUBDIVISIONS = 4 + 1 from rfl, polySignLoop_succ, hproc]

/-- Witness for C8: an all-positive linear polynomial gives sign 1 and a
mixed-corner one gives 0; the trichotomy instantiated at the first. -/
theorem polynomial_sign_spec_witness :
    polynomial_sign [[1], [2], [3]] 1 = .ok 1 ∧
    polynomial_sign [[1], [-1], [1]] 1 = .ok 0 ∧
    ((1 : ℤ) = -1 ∨ (1 : ℤ) = 0 ∨ (1 : ℤ) = 1) :=
  ⟨polynomial_sign_spec.2.1 [[1], [2], [3]] 1 (by norm_num)
      (by intro row hr; fin_cases hr; simp; simp; simp)
      (by intro row hr; fin_cases hr <;> · intro x hx; fin_cases hx; norm_num),
    polynomial_sign_spec.2.2 [[1], [-1], [1]] 1 (by norm_num)
      (by norm_num [sgn]),
    polynomial_sign_spec.1 [[1], [2], [3]] 1 1
      (polynomial_sign_spec.2.1 [[1], [2], [3]] 1 (by norm_num)
        (by intro row hr; fin_cases hr; simp; simp; simp)
        (by intro row hr; fin_cases hr <;> · intro x hx; fin_cases hx; norm_num))⟩

/-- C9: polynomial_sign is a total function that runs exactly
_MAX_POLY_SUBDIVISIONS = 5 rounds of processing and four-way subdivision,
and signals the no-conclusion error once the rounds are exhausted with some
sub-polynomial still undecided. -/
theorem polynomial_sign_termination :
    _MAX_POLY_SUBDIVISIONS = 5 ∧
    (∀ (poly : List (List ℚ)) (degree : ℕ),
      polynomial_sign poly degree =
        polySignLoop degree _MAX_POLY_SUBDIVISIONS [] [poly]) ∧
    (∀ (degree : ℕ) (signs : List ℤ) (polys : List (List (List ℚ))),
      polys ≠ [] →
      polySignLoop degree 0 signs polys =
        .error "Did not reach a conclusion after max subdivisions") ∧
    (∀ (poly : List (List ℚ)) (degree : ℕ),
      (∃ r, polynomial_sign poly degree = .ok r) ∨
      (∃ e, polynomial_sign poly degree = .error e)) := by
  refine ⟨rfl, fun _ _ => rfl, ?_, ?_⟩
  · intro degree signs polys hne
    simp only [polySignLoop]
    rw [if_neg (by simpa using hne)]
  · intro poly degree
    cases h : polynomial_sign poly degree with
    | ok r => exact Or.inl ⟨r, rfl⟩
    | error e => exact Or.inr ⟨e, rfl⟩

/-- Witness for C9: with the rounds exhausted and a nonempty worklist the
loop reports the no-conclusion failure. -/
theorem polynomial_sign_termination_witness :
    polySignLoop 1 0 [] [[[1]]] =
      .error "Did not reach a conclusion after max subdivisions" :=
  polynomial_sign_termination.2.2.1 1 [] [[[1]]] (by simp)

/-- C5: with an empty crossing list, combine_intersections returns the first
surface when its first corner locates inside the second surface, else the
second surface when its first corner locates inside the first, and an empty
list when the surfaces are disjoint. -/
theorem combine_intersections_empty (locate : Locate) (surface1 : Surface)
    (edges1 : Edges) (surface2 : Surface) (edges2 : Edges) :
    ((locate surface2 (surface1.nodes.getD 0 (0, 0))).isSome = true →
      combine_intersections locate [] surface1 edges1 surface2 edges2 =
        .ok [.surf surface1]) ∧
    ((locate surface2 (surface1.nodes.getD 0 (0, 0))).isSome = false →
      (locate surface1 (surface2.nodes.getD 0 (0, 0))).isSome = true →
      combine_intersections locate [] surface1 edges1 surface2 edges2 =
        .ok [.surf surface2]) ∧
    ((locate surface2 (surface1.nodes.getD 0 (0, 0))).isSome = false →
      (locate surface1 (surface2.nodes.getD 0 (0, 0))).isSome = false →
      combine_intersections locate [] surface1 edges1 surface2 edges2 =
        .ok []) := by
  refine ⟨?_, ?_, ?_⟩
  · intro h1
    simp only [List.getD_eq_getElem?_getD, Prod.mk_zero_zero] at h1
    simp [combine_intersections, no_intersections, h1]
  · intro h1 h2
    simp only [List.getD_eq_getElem?_getD, Prod.mk_zero_zero] at h1 h2
    simp [combine_intersections, no_intersections, h1, h2]
  · intro h1 h2
    simp only [List.getD_eq_getElem?_getD, Prod.mk_zero_zero] at h1 h2
    simp [combine_intersections, no_intersections, h1, h2]

/-- Witness for C5: a locate that always finds the point returns the first
surface; one that never finds it returns nothing. -/
theorem combine_intersections_empty_witness :
    combine_intersections (fun _ _ => some (0, 0)) [] ⟨[(0, 0)]⟩
        (⟨[]⟩, ⟨[]⟩, ⟨[]⟩) ⟨[(2, 0)]⟩ (⟨[]⟩, ⟨[]⟩, ⟨[]⟩) =
      .ok [.surf ⟨[(0, 0)]⟩] ∧
    combine_intersections (fun _ _ => none) [] ⟨[(0, 0)]⟩
        (⟨[]⟩, ⟨[]⟩, ⟨[]⟩) ⟨[(2, 0)]⟩ (⟨[]⟩, ⟨[]⟩, ⟨[]⟩) = .ok [] :=
  ⟨(combine_intersections_empty (fun _ _ => some (0, 0)) ⟨[(0, 0)]⟩
      (⟨[]⟩, ⟨[]⟩, ⟨[]⟩) ⟨[(2, 0)]⟩ (⟨[]⟩, ⟨[]⟩, ⟨[]⟩)).1 rfl,
    (combine_intersections_empty (fun _ _ => none) ⟨[(0, 0)]⟩
      (⟨[]⟩, ⟨[]⟩, ⟨[]⟩) ⟨[(2, 0)]⟩ (⟨[]⟩, ⟨[]⟩, ⟨[]⟩)).2.2 rfl rfl⟩

/-- Helper: the dedup of a nonempty constant list is the corresponding
singleton. -/
theorem dedup_const {α : Type _} [DecidableEq α] :
    ∀ (l : List α) (c : α), l ≠ [] → (∀ x ∈ l, x = c) → l.dedup = [c]
  | [], _, hne, _ => absurd rfl hne
  | [a], c, _, h => by
    have : a = c := h a (by simp)
    simp [this]
  | a :: b :: t, c, _, h => by
    have ha : a = c := h a (by simp)
    have hrest : (b :: t).dedup = [c] :=
      dedup_const (b :: t) c (by simp) (fun x hx => h x (by simp [hx]))
    have hmem : a ∈ b :: t := by
      rw [ha]
      have hc : c ∈ (b :: t).dedup := by
        rw [hrest]
        simp
      exact List.mem_dedup.mp hc
    rw [List.dedup_cons_of_mem hmem, hrest]

/-- C6: for a nonempty crossing list with no FIRST or SECOND entry,
tangent_only_intersections signals an error on heterogeneous
classifications, returns nothing when all are OPPOSED or all
IGNORED_CORNER, the first surface when all are TANGENT_FIRST, and the
second when all are TANGENT_SECOND. -/
theorem tangent_only_intersections_spec
    (intersections : List IntersectionNode) (surface1 surface2 : Surface)
    (hne : intersections ≠ [])
    (_hnofs : ∀ i ∈ intersections,
      i.interior_curve ≠ FIRST ∧ i.interior_curve ≠ SECOND) :
    ((¬ ∃ c, ∀ i ∈ intersections, i.interior_curve = c) →
      ∃ e, tangent_only_intersections intersections surface1 surface2 =
        .error e) ∧
    ((∀ i ∈ intersections, i.interior_curve = OPPOSED) →
      tangent_only_intersections intersections surface1 surface2 = .ok []) ∧
    ((∀ i ∈ intersections, i.interior_curve = IGNORED_CORNER) →
      tangent_only_intersections intersections surface1 surface2 = .ok []) ∧
    ((∀ i ∈ intersections, i.interior_curve = TANGENT_FIRST) →
      tangent_only_intersections intersections surface1 surface2 =
        .ok [surface1]) ∧
    ((∀ i ∈ intersections, i.interior_curve = TANGENT_SECOND) →
      tangent_only_intersections intersections surface1 surface2 =
        .ok [surface2]) := by
  have hmapne : intersections.map (fun i => i.interior_curve) ≠ [] := by
    simpa using hne
  have hconst : ∀ c : IntersectionClassification,
      (∀ i ∈ intersections, i.interior_curve = c) →
      (intersections.map (fun i => i.interior_curve)).dedup = [c] := by
    intro c hall
    refine dedup_const _ _ hmapne ?_
    intro x hx
    obtain ⟨i, hi, rfl⟩ := List.mem_map.mp hx
    exact hall i hi
  refine ⟨?_, ?_, ?_, ?_, ?_⟩
  · intro hhet
    cases hd : (intersections.map (fun i => i.interior_curve)).dedup with
    | nil =>
      exact ⟨"Unexpected value, types should all match",
        by simp [tangent_only_intersections, hd]⟩
    | cons pt rest =>
      cases rest with
      | nil =>
        exfalso
        apply hhet
        refine ⟨pt, fun i hi => ?_⟩
        have hmem : i.interior_curve ∈
            (intersections.map (fun j => j.interior_curve)).dedup := by
          rw [List.mem_dedup]
          exact List.mem_map_of_mem _ hi
        rw [hd] at hmem
        simpa using hmem
      | cons b rest2 =>
        exact ⟨"Unexpected value, types should all match",
          by simp [tangent_only_intersections, hd]⟩
  · intro hall
    simp [tangent_only_intersections, hconst OPPOSED hall]
  · intro hall
    simp [tangent_only_intersections, hconst IGNORED_CORNER hall]
  · intro hall
    simp [tangent_only_intersections, hconst TANGENT_FIRST hall]
  · intro hall
    simp [tangent_only_intersections, hconst TANGENT_SECOND hall]

/-- Witness for C6: a single OPPOSED crossing yields the empty result. -/
theorem tangent_only_intersections_spec_witness :
    tangent_only_intersections
      [⟨some 0, some 0, some 0, some 0, some 0, OPPOSED⟩]
      ⟨[(0, 0)]⟩ ⟨[(1, 1)]⟩ = .ok [] :=
  (tangent_only_intersections_spec
    [⟨some 0, some 0, some 0, some 0, some 0, OPPOSED⟩]
    ⟨[(0, 0)]⟩ ⟨[(1, 1)]⟩ (by simp)
    (by
      intro i hi
      simp only [List.mem_singleton] at hi
      subst hi
      exact ⟨by decide, by decide⟩)).2.1
    (by
      intro i hi
      simp only [List.mem_singleton] at hi
      subst hi
      rfl)

/-- Helper: the walking loop never accumulates more pairs than the larger
of max_edges and the initial pair count. -/
theorem walkLoop_length (intersections : List IntersectionNode)
    (max_edges : ℕ) (start : IntersectionNode) (fuel : ℕ) :
    ∀ next_node edge_ends unused ee2 uu2,
      walkLoop intersections max_edges start fuel next_node edge_ends
        unused = .ok (ee2, uu2) →
      ee2.length ≤ max max_edges edge_ends.length := by
  induction fuel with
  | zero =>
    intro next_node edge_ends unused ee2 uu2 h
    cases h
  | succ n ih =>
    intro next_node edge_ends unused ee2 uu2 h
    simp only [walkLoop] at h
    split at h
    · cases h
      exact le_max_right _ _
    · split at h
      · cases h
        exact le_max_right _ _
      · split at h
        · cases h
        · rename_i next2 unused2 heq
          split at h
          · cases h
          · rename_i hlen
            have hrec := ih _ _ _ _ _ h
            have h2 := Nat.not_lt.mp hlen
            calc ee2.length
                ≤ max max_edges (edge_ends ++
                    [((to_front next_node intersections unused).1,
                      next2)]).length := hrec
              _ = max_edges := Nat.max_eq_left h2
              _ ≤ max max_edges edge_ends.length := le_max_left _ _

/-- Helper: descriptor conversion keeps the pair count. -/
theorem edgeInfoOf_length :
    ∀ (ee : List (IntersectionNode × IntersectionNode))
      (infos : List EdgeInfo), edgeInfoOf ee = .ok infos →
      infos.length = ee.length := by
  intro ee
  induction ee with
  | nil =>
    intro infos h
    cases h
    rfl
  | cons p rest ih =>
    intro infos h
    obtain ⟨a, b⟩ := p
    simp only [edgeInfoOf] at h
    split at h
    · cases h
    · split at h
      · cases h
      · rename_i infos2 heq2
        cases h
        simp [ih _ heq2]

/-- Helper: a polygon result of make_intersection has one edge segment per
descriptor. -/
theorem make_intersection_poly_length (edge_info : List EdgeInfo)
    (surface1 : Surface) (edges1 : Edges) (surface2 : Surface)
    (edges2 : Edges) (segs : List EdgeSegment)
    (h : make_intersection edge_info surface1 edges1 surface2 edges2 =
      .poly segs) : segs.length = edge_info.length := by
  unfold make_intersection at h
  split_ifs at h
  all_goals cases h
  all_goals simp

/-- Helper: the outer loop keeps the edge bound on every polygon it adds,
given the bound on what was already accumulated. -/
theorem bicLoop_bound (intersections : List IntersectionNode)
    (surface1 : Surface) (edges1 : Edges) (surface2 : Surface)
    (edges2 : Edges) (max_edges : ℕ) (hmax : 1 ≤ max_edges) (fuel : ℕ) :
    ∀ unused result0 result,
      (∀ sp ∈ result0, ∀ segs, sp = .poly segs → segs.length ≤ max_edges) →
      bicLoop intersections surface1 edges1 surface2 edges2 max_edges fuel
        unused result0 = .ok result →
      ∀ sp ∈ result, ∀ segs, sp = .poly segs → segs.length ≤ max_edges := by
  induction fuel with
  | zero =>
    intro unused result0 result h0 h
    simp only [bicLoop] at h
    split at h
    · cases h
      exact h0
    · cases h
  | succ n ih =>
    intro unused result0 result h0 h
    simp only [bicLoop] at h
    split at h
    · cases h
      exact h0
    · rename_i start hlast
      split at h
      · cases h
      · rename_i next_node unused1 heqnext
        split at h
        · cases h
        · rename_i edge_ends unused2 heqwalk
          split at h
          · cases h
          · rename_i edge_info heqinfo
            refine ih _ _ _ ?_ h
            intro sp hsp segs hpoly
            rcases List.mem_append.mp hsp with hin | hin
            · exact h0 sp hin segs hpoly
            · simp only [List.mem_singleton] at hin
              subst hin
              have hlen :=
                make_intersection_poly_length _ _ _ _ _ _ hpoly
              rw [hlen]
              have hw := walkLoop_length intersections max_edges start
                (max_edges + 2) _ _ _ _ _ heqwalk
              have heio := edgeInfoOf_length _ _ heqinfo
              rw [heio]
              have hone : ([(start, next_node)] :
                  List (IntersectionNode × IntersectionNode)).length = 1 :=
                rfl
              rw [hone] at hw
              calc edge_ends.length ≤ max max_edges 1 := hw
                _ = max_edges := Nat.max_eq_left hmax

/-- C7: a successful basic_interior_combine run never returns a curved
polygon with more edges than the configured maximum (the source default is
10, and any maximum of at least one edge satisfies the bound): whenever a
loop accumulates more edge pairs than the maximum, the walk signals an
error instead of returning. -/
theorem basic_interior_combine_edge_bound
    (intersections : List IntersectionNode) (surface1 : Surface)
    (edges1 : Edges) (surface2 : Surface) (edges2 : Edges)
    (max_edges : ℕ) (hmax : 1 ≤ max_edges) (result : List SurfacePolygon)
    (h : basic_interior_combine intersections surface1 edges1 surface2
      edges2 max_edges = .ok result) :
    ∀ sp ∈ result, ∀ segs, sp = .poly segs → segs.length ≤ max_edges := by
  unfold basic_interior_combine at h
  exact bicLoop_bound intersections surface1 edges1 surface2 edges2
    max_edges hmax _ _ _ _ (by intro sp hsp; cases hsp) h

/-- Witness for C7: on the example crossings the assembler emits one curved
polygon with five edges, and the bound instantiates to 5 ≤ 10. -/
theorem basic_interior_combine_edge_bound_witness :
    exampleResultSegments.length ≤ 10 :=
  basic_interior_combine_edge_bound [exampleNode0, exampleNode1]
    exampleSurface1 exampleEdges1 exampleSurface2 exampleEdges2 10
    (by norm_num) [.poly exampleResultSegments] rfl
    (.poly exampleResultSegments) (by simp) exampleResultSegments rfl
